import Mathlib

/-!
Verification development for the lisa suite execution engine
(`lisa/testsuite.py`): the per-case result state machine
(`TestResult`), exception classification, the bounded-retry policy,
the suite orchestrator (`TestSuite.start`) and the metadata registry.

Python mutation is embedded as explicit state passing: every method that
mutates a `TestResult` returns the updated record.  The notification
sink (`notifier.notify`) is embedded as a ghost `sink` list on the
record, appended to by `_send_result_message`.  Wall-clock time is out
of scope: a started timer is modelled as `some 0` and its `elapsed`
reading as that stored value.  Raised exceptions are embedded as the
closed `Exn` type of the four signal kinds the engine distinguishes;
`str(exception)` is embedded as `Exn.detail`.
-/

namespace Lisa

/-- Embeds the `TestStatus` enumeration of `testsuite.py`. -/
inductive TestStatus where
  | NOTRUN
  | RUNNING
  | FAILED
  | PASSED
  | SKIPPED
  | ATTEMPTED
deriving DecidableEq, Repr

/-- The four exception kinds the engine classifies: `SkippedException`,
`NotRunException`, `PassedException`, and any other (generic) exception.
The string is the exception's message, i.e. what `str(exception)` yields. -/
inductive Exn where
  | skippedExc (d : String)
  | notRunExc (d : String)
  | passedExc (d : String)
  | genericExc (d : String)
deriving DecidableEq, Repr

/-- `str(exception)`: the message text carried by the exception. -/
def Exn.detail : Exn → String
  | .skippedExc d => d
  | .notRunExc d => d
  | .passedExc d => d
  | .genericExc d => d

/-- Embeds the `TestResultMessage` dataclass sent to the notifier. -/
structure TestResultMessage where
  id_ : String
  type : String
  name : String
  status : TestStatus
  elapsed : Nat
  message : String
  information : List (String × String)
deriving DecidableEq, Repr

/-- Embeds the fields of `TestCaseRuntimeData` (and the metadata it
delegates to) that the execution engine reads: the case name, the
fully-qualified name, the retry count and the ignore-failure flag.
The remaining runtime settings (`times`, `select_action`, ...) are
never read by the embedded code paths. -/
structure TestCaseRuntimeData where
  name : String
  full_name : String
  retry : Nat
  ignore_failure : Bool
deriving DecidableEq, Repr

/-- Modelled from the spec: the capability collaborator's check result
(`search_space.ResultReason`, external to src/): a boolean verdict and
an explanation list. -/
structure ResultReason where
  result : Bool
  reasons : List String
deriving DecidableEq, Repr

/-- Modelled from the spec: `Merge(resultA, resultB, label)` folds two
check results into one — the verdict is the conjunction and the second
result's explanations are appended, tagged with the label. -/
def ResultReason.merge (a b : ResultReason) (name : String) : ResultReason :=
  { result := a.result && b.result
    reasons := a.reasons ++ b.reasons.map (fun s => if name = "" then s else name ++ ": " ++ s) }

/-- Embeds the `TestResult` dataclass.  `sink` is the ghost list of
messages this record has sent to the notifier; `timer` is `some t`
once `set_status RUNNING` created the timer (`t` being the abstracted
elapsed reading). -/
structure TestResult where
  id_ : String
  runtime_data : TestCaseRuntimeData
  status : TestStatus
  elapsed : Nat
  message : String
  environment : Option (List (String × String))
  check_results : Option ResultReason
  information : List (String × String)
  timer : Option Nat
  sink : List TestResultMessage
deriving DecidableEq, Repr

/-- Python `dict.update`: keys of `b` override keys of `a` (the
surviving key set and values match; insertion order is abstracted). -/
def dict_update (a b : List (String × String)) : List (String × String) :=
  a.filter (fun p => b.all (fun q => q.1 != p.1)) ++ b

/-- Python string slicing `s[0:n]`: the first `n` characters. -/
def strTake (s : String) (n : Nat) : String :=
  String.mk (s.data.take n)

/-- Embeds `TestResult._send_result_message`: refresh `elapsed` from the
timer if one exists, merge the environment's information into the
record's information, and append a `TestResultMessage` (with the
message text truncated to 2048 characters) to the notification sink. -/
def send_result_message (r : TestResult) : TestResult :=
  let r1 := match r.timer with
    | some t => { r with elapsed := t }
    | none => r
  let info := match r1.environment with
    | some env_info => dict_update r1.information env_info
    | none => r1.information
  let r2 := { r1 with information := info }
  let msg : TestResultMessage :=
    { id_ := r2.id_
      type := "TestResult"
      name := r2.runtime_data.full_name
      status := r2.status
      elapsed := r2.elapsed
      message := if r2.message ≠ "" then strTake r2.message 2048 else ""
      information := r2.information }
  { r2 with sink := r2.sink ++ [msg] }

/-- Embeds `TestResult.__post_init__`: a freshly created record starts
at `NOTRUN` with empty message and immediately sends a result message. -/
def TestResult.create (id_ : String) (runtime_data : TestCaseRuntimeData) : TestResult :=
  send_result_message
    { id_ := id_
      runtime_data := runtime_data
      status := TestStatus.NOTRUN
      elapsed := 0
      message := ""
      environment := none
      check_results := none
      information := []
      timer := none
      sink := [] }

/-- The message-log update of `TestResult.set_status`.  All call sites
in `testsuite.py` pass a single string, so the `Union[str, List[str]]`
parameter is embedded as `String`; joining the two-element message
list with a newline is written out directly. -/
def update_message (r : TestResult) (message : String) : TestResult :=
  if message ≠ "" then
    if r.message ≠ "" then { r with message := r.message ++ "\n" ++ message }
    else { r with message := message }
  else r

/-- See `update_message`; the second half of `TestResult.set_status`. -/
def set_status (r : TestResult) (new_status : TestStatus) (message : String) : TestResult :=
  if (update_message r message).status ≠ new_status then
    send_result_message
      (if new_status = TestStatus.RUNNING then
        { update_message r message with status := new_status, timer := some 0 }
      else { update_message r message with status := new_status })
  else update_message r message

/-- Embeds `TestResult.handle_exception`: the fixed classification of a
raised exception into a status, with the phase prefix gaining a
trailing space when non-empty. -/
def handle_exception (r : TestResult) (exception : Exn) (phase : String) : TestResult :=
  let ph := if phase = "" then "" else phase ++ " "
  match exception with
  | .skippedExc d => set_status r TestStatus.SKIPPED (ph ++ ("skipped: " ++ d))
  | .notRunExc d => set_status r TestStatus.NOTRUN (ph ++ ("notrun: " ++ d))
  | .passedExc d => set_status r TestStatus.PASSED (ph ++ ("warning: " ++ d))
  | .genericExc d =>
      if r.runtime_data.ignore_failure then set_status r TestStatus.ATTEMPTED (ph ++ d)
      else set_status r TestStatus.FAILED (ph ++ ("failed: " ++ d))

/-- The status `handle_exception` assigns, as a function of the
exception kind and the ignore-failure flag (the claim's precedence
table). -/
def classify (e : Exn) (ignore_failure : Bool) : TestStatus :=
  match e with
  | .skippedExc _ => TestStatus.SKIPPED
  | .notRunExc _ => TestStatus.NOTRUN
  | .passedExc _ => TestStatus.PASSED
  | .genericExc _ => if ignore_failure then TestStatus.ATTEMPTED else TestStatus.FAILED

/-- The sequence of statuses a record has held, as observed through the
notification sink: the creation message records the initial status and
every later message records one status change. -/
def statusTrace (r : TestResult) : List TestStatus :=
  r.sink.map (fun m => m.status)

/-- Embeds `TestResult.check_environment`.  The external capability
collaborator's outputs are inputs of the embedding: `envCheck` is
`requirement.environment.check(environment.capability)`, `has_os_type`
whether `requirement.os_type` is set, `connected` whether the
environment status is `Connected`, and `nodeChecks` the per-node
results of `requirement.os_type.check(node_os_capability)` in node
order.  Besides the verdict and the updated record, it returns the
number of nodes the loop actually examined (a ghost counter). -/
def check_env_loop (acc : ResultReason) : List ResultReason → ResultReason × Nat
  | [] => (acc, 0)
  | nc :: rest =>
      let acc1 := acc.merge nc "os_type"
      if acc1.result = false then (acc1, 1)
      else
        let p := check_env_loop acc1 rest
        (p.1, p.2 + 1)

/-- See `check_env_loop`; the `save_reason` flag controls only whether
the explanation is stored on the record (merged into any previously
stored one), exactly as in the source. -/
def check_environment (r : TestResult) (envCheck : ResultReason)
    (has_os_type connected : Bool) (nodeChecks : List ResultReason)
    (save_reason : Bool) : Bool × TestResult × Nat :=
  let p :=
    if envCheck.result && has_os_type && connected then check_env_loop envCheck nodeChecks
    else (envCheck, 0)
  let r1 :=
    if save_reason then
      match r.check_results with
      | some prev => { r with check_results := some (prev.merge p.1 "") }
      | none => { r with check_results := some p.1 }
    else r
  (p.1.result, r1, p.2)

/-- Embeds `retry.api.retry_call` as used here: the hook or case body
is a function from the 0-based attempt index to its outcome (`none` =
returns normally, `some e` = raises `e`).  Up to `tries` attempts are
made starting at index `i`; the result is the number of attempts
actually made together with `none` on success or the last exception
once all attempts raised. -/
def retry_call (f : Nat → Option Exn) : Nat → Nat → Nat × Option Exn
  | 0, _ => (0, none)
  | tries + 1, i =>
    match f i with
    | none => (1, none)
    | some e =>
      if tries = 0 then (1, some e)
      else
        let p := retry_call f tries (i + 1)
        (p.1 + 1, p.2)

/-- One lifecycle event of a suite run (ghost trace).  Attempt events
carry the index of the case in the provided order. -/
inductive Event where
  | beforeSuiteCall
  | afterSuiteCall
  | beforeCaseAttempt (idx : Nat)
  | bodyAttempt (idx : Nat)
  | afterCaseAttempt (idx : Nat)
deriving DecidableEq, Repr

/-- `true` exactly for the events the suite-setup-failure path must not
produce: a `before_case` attempt or a case-body attempt. -/
def Event.is_case_exec : Event → Bool
  | .beforeCaseAttempt _ => true
  | .bodyAttempt _ => true
  | _ => false

/-- The behaviours of one case inside a suite run: the attempt-indexed
outcomes of its `before_case` hook, its body and its `after_case` hook,
and whether its body calls `TestSuite.stop()` when it runs. -/
structure CaseSpec where
  before_case : Nat → Option Exn
  body : Nat → Option Exn
  after_case : Nat → Option Exn
  bodySetsStop : Bool

/-- The suite-level hooks of one run: `none` means the hook returns
normally, `some d` that it raises an exception with message `d`. -/
structure SuiteRun where
  before_suite : Option String
  after_suite : Option String

/-- Embeds `TestSuite.__suite_method`: the method runs once; an
exception is captured as `(False, "<method_name>: <detail>")` instead
of propagating. -/
def suite_method (method_name : String) (outcome : Option String) : Bool × String :=
  match outcome with
  | none => (true, "")
  | some d => (false, method_name ++ ": " ++ d)

/-- Embeds `TestSuite.__run_case`: run the case body under the bounded
retry policy (`retry + 1` tries); on success set `PASSED`, on final
failure classify the exception.  Also returns the number of body
attempts made. -/
def run_case (r : TestResult) (body : Nat → Option Exn) : TestResult × Nat :=
  let p := retry_call body (r.runtime_data.retry + 1) 0
  match p.2 with
  | none => (set_status r TestStatus.PASSED "", p.1)
  | some e => (handle_exception r e "", p.1)

/-- The decided part of one iteration of the loop in `TestSuite.start`,
before `after_case` runs: bind the environment, transition to
`RUNNING`, then either skip on suite-setup failure, or run
`__before_case` (skipping on its final failure) and, if it succeeded,
`__run_case`.  Returns the decided record, whether the body set the
stop flag, and the hook/body attempt events. -/
def case_outcome (is_suite_continue : Bool) (suite_error_message : String)
    (idx : Nat) (c : CaseSpec) (r0 : TestResult)
    (env_info : List (String × String)) : TestResult × Bool × List Event :=
  let r1 := set_status { r0 with environment := some env_info } TestStatus.RUNNING ""
  if is_suite_continue then
    let pb := retry_call c.before_case (r0.runtime_data.retry + 1) 0
    match pb.2 with
    | some e =>
        (set_status r1 TestStatus.SKIPPED ("before_case: " ++ e.detail), false,
          List.replicate pb.1 (Event.beforeCaseAttempt idx))
    | none =>
        let pr := run_case r1 c.body
        (pr.1, c.bodySetsStop,
          List.replicate pb.1 (Event.beforeCaseAttempt idx) ++
            List.replicate pr.2 (Event.bodyAttempt idx))
  else
    (set_status r1 TestStatus.SKIPPED suite_error_message, false, ([] : List Event))

/-- One full iteration of the loop in `TestSuite.start`: the decided
outcome, then `TestSuite.__after_case` (bounded retry; an exception
after the retries are exhausted is logged and swallowed and the record
is left untouched). -/
def process_case (is_suite_continue : Bool) (suite_error_message : String)
    (idx : Nat) (c : CaseSpec) (r0 : TestResult)
    (env_info : List (String × String)) : TestResult × Bool × List Event :=
  let d := case_outcome is_suite_continue suite_error_message idx c r0 env_info
  let pa := retry_call c.after_case (r0.runtime_data.retry + 1) 0
  (d.1, d.2.1, d.2.2 ++ List.replicate pa.1 (Event.afterCaseAttempt idx))

/-- The case loop of `TestSuite.start`: process each case in order;
after each case, if the stop flag was set, break — the remaining
records are returned untouched. -/
def start_loop (is_suite_continue : Bool) (suite_error_message : String) :
    Nat → List (CaseSpec × TestResult) → List (String × String) →
      List TestResult × List Event
  | _, [], _ => ([], [])
  | idx, (c, r) :: rest, env_info =>
    let p := process_case is_suite_continue suite_error_message idx c r env_info
    if p.2.1 then
      (p.1 :: rest.map Prod.snd, p.2.2)
    else
      let tail := start_loop is_suite_continue suite_error_message (idx + 1) rest env_info
      (p.1 :: tail.1, p.2.2 ++ tail.2)

/-- Embeds `TestSuite.start`: run `before_suite` through
`__suite_method` (its failure is captured, not raised), loop over the
case records, then run `after_suite` through `__suite_method`
unconditionally.  `env_info` is the environment's information map. -/
def start (sr : SuiteRun) (cs : List (CaseSpec × TestResult))
    (env_info : List (String × String)) : List TestResult × List Event :=
  let bs := suite_method "before_suite" sr.before_suite
  let lp := start_loop bs.1 bs.2 0 cs env_info
  let _ := suite_method "after_suite" sr.after_suite
  (lp.1, Event.beforeSuiteCall :: lp.2 ++ [Event.afterSuiteCall])

/-- Embeds the suite registry entry: the explicit name (empty when the
decorator was given none), the declaring class name, and the attached
case full names. -/
structure SuiteMeta where
  name : String
  class_name : String
  cases : List String
deriving DecidableEq, Repr

/-- Embeds the case registry entry: short name, fully-qualified name,
and the owning suite's key once attached. -/
structure CaseMeta where
  name : String
  full_name : String
  suite : Option String
deriving DecidableEq, Repr

/-- The process-wide registries `_all_suites` and `_all_cases`,
embedded as insertion-ordered association lists. -/
structure Registry where
  all_suites : List (String × SuiteMeta)
  all_cases : List (String × CaseMeta)
deriving DecidableEq, Repr

/-- Dictionary lookup on an association list. -/
def alist_get {α : Type} (l : List (String × α)) (k : String) : Option α :=
  (l.find? (fun p => p.1 == k)).map Prod.snd

/-- Python `str.startswith`. -/
def starts_with (s p : String) : Bool :=
  p.data.isPrefixOf s.data

/-- The registry key of a suite: its explicit name if set, else the
declaring class name. -/
def suite_key (m : SuiteMeta) : String :=
  if m.name ≠ "" then m.name else m.class_name

/-- Embeds `_add_suite_metadata`: raise on a duplicate key (returning
the registries exactly as they were at the raise point), otherwise
insert the suite and back-fill every previously registered case whose
full name starts with `"<key>."`. -/
def _add_suite_metadata (reg : Registry) (m : SuiteMeta) : Registry × Option String :=
  let key := suite_key m
  match alist_get reg.all_suites key with
  | none =>
    let class_pre := key ++ "."
    let matched := reg.all_cases.filter (fun p => starts_with p.2.full_name class_pre)
    let m1 := { m with cases := m.cases ++ matched.map (fun p => p.2.full_name) }
    let cases1 := reg.all_cases.map (fun p =>
      if starts_with p.2.full_name class_pre then (p.1, { p.2 with suite := some key }) else p)
    ({ all_suites := reg.all_suites ++ [(key, m1)], all_cases := cases1 }, none)
  | some _ => (reg, some ("duplicate test class name: " ++ key))

/-- Embeds `_add_case_metadata`: raise on a duplicate fully-qualified
name (returning the registries exactly as they were at the raise
point), otherwise insert the case and, if its suite is already
registered, attach it immediately. -/
def _add_case_metadata (reg : Registry) (m : CaseMeta) : Registry × Option String :=
  match alist_get reg.all_cases m.full_name with
  | none =>
    let class_name := (m.full_name.splitOn ".").headD ""
    match alist_get reg.all_suites class_name with
    | some s =>
      let s1 := { s with cases := s.cases ++ [m.full_name] }
      ({ all_suites := reg.all_suites.map (fun p => if p.1 == class_name then (p.1, s1) else p)
         all_cases := reg.all_cases ++ [(m.full_name, { m with suite := some class_name })] },
        none)
    | none => ({ reg with all_cases := reg.all_cases ++ [(m.full_name, m)] }, none)
  | some _ => (reg, some ("duplicate test class name: " ++ m.full_name))

/-- Spec-side description of the node loop's reach: the loop examines
nodes up to and including the first one whose check fails (all of them
when none fails). -/
def nodes_examined : List ResultReason → Nat
  | [] => 0
  | nc :: rest => if nc.result = false then 1 else nodes_examined rest + 1

/-- One step of the status diagram exactly as the claim states it:
`NotRun → Running` and `Running → {Passed, Failed, Skipped, Attempted}`. -/
def claimedStep (a b : TestStatus) : Bool :=
  (a == TestStatus.NOTRUN && b == TestStatus.RUNNING) ||
    (a == TestStatus.RUNNING &&
      (b == TestStatus.PASSED || b == TestStatus.FAILED ||
        b == TestStatus.SKIPPED || b == TestStatus.ATTEMPTED))

/-- Whether every consecutive pair of a status history is a step of the
claimed diagram. -/
def stepsOK : List TestStatus → Bool
  | a :: b :: rest => claimedStep a b && stepsOK (b :: rest)
  | _ => true

/-! ### Concrete fixtures used by witnesses and counterexamples -/

/-- A concrete runtime data: retry 2, failures not ignored. -/
def rdFix : TestCaseRuntimeData :=
  { name := "hello", full_name := "HelloWorld.hello", retry := 2, ignore_failure := false }

/-- A concrete runtime data: retry 0. -/
def rdFix0 : TestCaseRuntimeData :=
  { name := "bye", full_name := "HelloWorld.bye", retry := 0, ignore_failure := false }

/-- A freshly created record over `rdFix`. -/
def rFix : TestResult := TestResult.create "r1" rdFix

/-- A freshly created record over `rdFix0`. -/
def rFix0 : TestResult := TestResult.create "r0" rdFix0

/-- A case body failing on its first two attempts and succeeding on the
third. -/
def bodyFix : Nat → Option Exn :=
  fun i => if i < 2 then some (Exn.genericExc "boom") else none

/-- A case whose hooks and body all return normally. -/
def csOk : CaseSpec := ⟨fun _ => none, fun _ => none, fun _ => none, false⟩

/-- A case that runs normally and whose body calls `stop()`. -/
def csStop : CaseSpec := ⟨fun _ => none, fun _ => none, fun _ => none, true⟩

/-- A case whose body always raises the keep-not-run signal. -/
def csNotRun : CaseSpec :=
  ⟨fun _ => none, fun _ => some (Exn.notRunExc "inconclusive"), fun _ => none, false⟩

/-- A suite run whose hooks return normally. -/
def srOk : SuiteRun := ⟨none, none⟩

/-- A suite run whose `before_suite` raises. -/
def srBad : SuiteRun := ⟨some "no network", none⟩

/-- A registry already holding suite `HelloWorld` and its case. -/
def regFix : Registry :=
  { all_suites :=
      [("HelloWorld",
        { name := "HelloWorld", class_name := "HelloWorld", cases := ["HelloWorld.hello"] })]
    all_cases :=
      [("HelloWorld.hello",
        { name := "hello", full_name := "HelloWorld.hello", suite := some "HelloWorld" })] }

/-- A suite descriptor clashing with the registered suite name. -/
def smFix : SuiteMeta := { name := "HelloWorld", class_name := "HelloWorld", cases := [] }

/-- A case descriptor clashing with the registered case full name. -/
def cmFix : CaseMeta := { name := "hello", full_name := "HelloWorld.hello", suite := none }

/-! ### Basic facts about strings and the state-machine primitives -/

lemma string_eq_empty_iff (s : String) : s = "" ↔ s.data = [] := by
  constructor
  · intro h; simp [h]
  · intro h; apply String.ext; simpa using h

lemma append_ne_empty_left (a b : String) (h : a ≠ "") : a ++ b ≠ "" := by
  intro hab
  rw [string_eq_empty_iff, String.data_append, List.append_eq_nil] at hab
  exact h ((string_eq_empty_iff a).mpr hab.1)

lemma append_ne_empty_right (a b : String) (h : b ≠ "") : a ++ b ≠ "" := by
  intro hab
  rw [string_eq_empty_iff, String.data_append, List.append_eq_nil] at hab
  exact h ((string_eq_empty_iff b).mpr hab.2)

lemma string_empty_append (s : String) : "" ++ s = s := by
  apply String.ext
  rw [String.data_append]
  rfl

lemma send_status (r : TestResult) : (send_result_message r).status = r.status := by
  cases r with
  | mk id_ rd st el m env cr info tm sk => cases tm <;> cases env <;> rfl

lemma send_message (r : TestResult) : (send_result_message r).message = r.message := by
  cases r with
  | mk id_ rd st el m env cr info tm sk => cases tm <;> cases env <;> rfl

lemma send_runtime_data (r : TestResult) :
    (send_result_message r).runtime_data = r.runtime_data := by
  cases r with
  | mk id_ rd st el m env cr info tm sk => cases tm <;> cases env <;> rfl

lemma send_trace (r : TestResult) :
    statusTrace (send_result_message r) = statusTrace r ++ [r.status] := by
  cases r with
  | mk id_ rd st el m env cr info tm sk =>
      cases tm <;> cases env <;> simp [statusTrace, send_result_message]

lemma update_message_status (r : TestResult) (m : String) :
    (update_message r m).status = r.status := by
  unfold update_message
  split
  · split <;> rfl
  · rfl

lemma update_message_sink (r : TestResult) (m : String) :
    (update_message r m).sink = r.sink := by
  unfold update_message
  split
  · split <;> rfl
  · rfl

lemma update_message_runtime_data (r : TestResult) (m : String) :
    (update_message r m).runtime_data = r.runtime_data := by
  unfold update_message
  split
  · split <;> rfl
  · rfl

lemma update_message_trace (r : TestResult) (m : String) :
    statusTrace (update_message r m) = statusTrace r := by
  unfold statusTrace
  rw [update_message_sink]

lemma update_message_empty (r : TestResult) : update_message r "" = r := by
  unfold update_message
  simp

lemma update_message_message (r : TestResult) (m : String) (hm : m ≠ "") :
    (update_message r m).message =
      if r.message = "" then m else r.message ++ "\n" ++ m := by
  unfold update_message
  rw [if_pos hm]
  by_cases h : r.message = "" <;> simp [h]

lemma set_status_status (r : TestResult) (s : TestStatus) (m : String) :
    (set_status r s m).status = s := by
  unfold set_status
  by_cases h : (update_message r m).status ≠ s
  · rw [if_pos h]
    split <;> simp [send_status]
  · rw [if_neg h]
    exact not_not.mp h

lemma set_status_message (r : TestResult) (s : TestStatus) (m : String) :
    (set_status r s m).message = (update_message r m).message := by
  unfold set_status
  by_cases h : (update_message r m).status ≠ s
  · rw [if_pos h]
    split <;> simp [send_message]
  · rw [if_neg h]

lemma set_status_runtime_data (r : TestResult) (s : TestStatus) (m : String) :
    (set_status r s m).runtime_data = r.runtime_data := by
  unfold set_status
  by_cases h : (update_message r m).status ≠ s
  · rw [if_pos h]
    split <;> simp [send_runtime_data, update_message_runtime_data]
  · rw [if_neg h]
    exact update_message_runtime_data r m

lemma set_status_sink_of_eq (r : TestResult) (s : TestStatus) (m : String)
    (h : r.status = s) : (set_status r s m).sink = r.sink := by
  unfold set_status
  have h1 : (update_message r m).status = s := by rw [update_message_status, h]
  rw [if_neg (not_not.mpr h1)]
  exact update_message_sink r m

lemma set_status_trace_of_ne (r : TestResult) (s : TestStatus) (m : String)
    (h : r.status ≠ s) : statusTrace (set_status r s m) = statusTrace r ++ [s] := by
  unfold set_status
  have h1 : (update_message r m).status ≠ s := by rw [update_message_status]; exact h
  rw [if_pos h1]
  split <;> rw [send_trace] <;> simp [statusTrace, update_message_sink]

lemma handle_exception_status (r : TestResult) (e : Exn) (p : String) :
    (handle_exception r e p).status = classify e r.runtime_data.ignore_failure := by
  cases e with
  | skippedExc d => simp [handle_exception, classify, set_status_status]
  | notRunExc d => simp [handle_exception, classify, set_status_status]
  | passedExc d => simp [handle_exception, classify, set_status_status]
  | genericExc d =>
      by_cases hi : r.runtime_data.ignore_failure <;>
        simp [handle_exception, classify, hi, set_status_status]

lemma handle_exception_runtime_data (r : TestResult) (e : Exn) (p : String) :
    (handle_exception r e p).runtime_data = r.runtime_data := by
  cases e with
  | skippedExc d => simp [handle_exception, set_status_runtime_data]
  | notRunExc d => simp [handle_exception, set_status_runtime_data]
  | passedExc d => simp [handle_exception, set_status_runtime_data]
  | genericExc d =>
      by_cases hi : r.runtime_data.ignore_failure <;>
        simp [handle_exception, hi, set_status_runtime_data]

lemma handle_exception_trace (r : TestResult) (e : Exn) (p : String)
    (h : r.status ≠ classify e r.runtime_data.ignore_failure) :
    statusTrace (handle_exception r e p) =
      statusTrace r ++ [classify e r.runtime_data.ignore_failure] := by
  cases e with
  | skippedExc d => exact set_status_trace_of_ne r _ _ h
  | notRunExc d => exact set_status_trace_of_ne r _ _ h
  | passedExc d => exact set_status_trace_of_ne r _ _ h
  | genericExc d =>
      by_cases hi : r.runtime_data.ignore_failure <;>
        simp only [handle_exception, classify, hi, if_true, if_false] at h ⊢ <;>
        exact set_status_trace_of_ne r _ _ h

lemma classify_ne_running (e : Exn) (i : Bool) : classify e i ≠ TestStatus.RUNNING := by
  cases e <;> cases i <;> simp [classify]

lemma classify_cases (e : Exn) (i : Bool) :
    classify e i = TestStatus.PASSED ∨ classify e i = TestStatus.FAILED ∨
      classify e i = TestStatus.SKIPPED ∨ classify e i = TestStatus.ATTEMPTED ∨
      classify e i = TestStatus.NOTRUN := by
  cases e <;> cases i <;> simp [classify]

lemma create_status (id_ : String) (rd : TestCaseRuntimeData) :
    (TestResult.create id_ rd).status = TestStatus.NOTRUN := rfl

lemma create_trace (id_ : String) (rd : TestCaseRuntimeData) :
    statusTrace (TestResult.create id_ rd) = [TestStatus.NOTRUN] := rfl

lemma create_runtime_data (id_ : String) (rd : TestCaseRuntimeData) :
    (TestResult.create id_ rd).runtime_data = rd := rfl

/-! ### Facts about the bounded retry policy -/

lemma retry_call_le (f : Nat → Option Exn) (n i : Nat) : (retry_call f n i).1 ≤ n := by
  induction n generalizing i with
  | zero => simp [retry_call]
  | succ n ih =>
    cases hf : f i with
    | none => simp [retry_call, hf]
    | some e =>
      simp only [retry_call, hf]
      by_cases hn : n = 0
      · simp [hn]
      · rw [if_neg hn]
        have := ih (i + 1)
        omega

lemma retry_call_pos (f : Nat → Option Exn) (n i : Nat) :
    1 ≤ (retry_call f (n + 1) i).1 := by
  cases hf : f i with
  | none => simp [retry_call, hf]
  | some e =>
    simp only [retry_call, hf]
    by_cases hn : n = 0
    · simp [hn]
    · rw [if_neg hn]
      omega

lemma retry_call_first_success (f : Nat → Option Exn) :
    ∀ (j n i : Nat), j < n → f (i + j) = none → (∀ m, m < j → (f (i + m)).isSome) →
      retry_call f n i = (j + 1, none) := by
  intro j
  induction j with
  | zero =>
    intro n i hn hsucc _
    cases n with
    | zero => omega
    | succ n =>
      have h0 : f i = none := by simpa using hsucc
      simp [retry_call, h0]
  | succ j ih =>
    intro n i hn hsucc hfail
    cases n with
    | zero => omega
    | succ n =>
      have h0 : (f i).isSome := by simpa using hfail 0 (by omega)
      obtain ⟨e, he⟩ := Option.isSome_iff_exists.mp h0
      simp only [retry_call, he]
      rw [if_neg (by omega : n ≠ 0)]
      have hrec := ih n (i + 1) (by omega)
        (by rw [show i + 1 + j = i + (j + 1) from by omega]; exact hsucc)
        (fun m hm => by
          rw [show i + 1 + m = i + (m + 1) from by omega]
          exact hfail (m + 1) (by omega))
      simp [hrec]

lemma retry_call_all_fail (f : Nat → Option Exn) :
    ∀ (n i : Nat), 1 ≤ n → (∀ m, m < n → (f (i + m)).isSome) →
      ∃ e, f (i + (n - 1)) = some e ∧ retry_call f n i = (n, some e) := by
  intro n
  induction n with
  | zero => omega
  | succ n ih =>
    intro i _ hfail
    obtain ⟨e0, he0⟩ := Option.isSome_iff_exists.mp (by simpa using hfail 0 (by omega))
    rcases Nat.eq_zero_or_pos n with h0 | hpos
    · subst h0
      refine ⟨e0, by simpa using he0, ?_⟩
      simp [retry_call, he0]
    · obtain ⟨e, he, hrc⟩ := ih (i + 1) (by omega)
        (fun m hm => by
          rw [show i + 1 + m = i + (m + 1) from by omega]
          exact hfail (m + 1) (by omega))
      refine ⟨e, ?_, ?_⟩
      · rw [show i + (n + 1 - 1) = i + 1 + (n - 1) from by omega]
        exact he
      · simp only [retry_call, he0]
        rw [if_neg (by omega : n ≠ 0)]
        simp [hrc]

lemma update_message_id (r : TestResult) (m : String) :
    (update_message r m).id_ = r.id_ := by
  unfold update_message
  split
  · split <;> rfl
  · rfl

lemma strTake_length_le (s : String) (n : Nat) : (strTake s n).length ≤ n := by
  rw [strTake, String.length_mk]
  simp [List.length_take]

lemma send_sink (r : TestResult) :
    ∃ msg, (send_result_message r).sink = r.sink ++ [msg] ∧
      msg.id_ = r.id_ ∧ msg.status = r.status ∧
      msg.name = r.runtime_data.full_name ∧
      msg.message = strTake (send_result_message r).message 2048 ∧
      msg.elapsed = (send_result_message r).elapsed ∧
      msg.information = (send_result_message r).information := by
  cases r with
  | mk id_ rd st el m env cr info tm sk =>
    cases tm <;> cases env <;>
      refine ⟨_, rfl, rfl, rfl, rfl, ?_, rfl, rfl⟩ <;>
      by_cases hm : m = "" <;> simp [send_result_message, hm, strTake]

lemma run_case_snd (r : TestResult) (body : Nat → Option Exn) :
    (run_case r body).2 = (retry_call body (r.runtime_data.retry + 1) 0).1 := by
  unfold run_case
  cases hp : (retry_call body (r.runtime_data.retry + 1) 0).2 <;> simp [hp]

lemma run_case_fst_none (r : TestResult) (body : Nat → Option Exn)
    (hp : (retry_call body (r.runtime_data.retry + 1) 0).2 = none) :
    (run_case r body).1 = set_status r TestStatus.PASSED "" := by
  unfold run_case
  simp [hp]

lemma run_case_fst_some (r : TestResult) (body : Nat → Option Exn) (e : Exn)
    (hp : (retry_call body (r.runtime_data.retry + 1) 0).2 = some e) :
    (run_case r body).1 = handle_exception r e "" := by
  unfold run_case
  simp [hp]

lemma check_env_loop_visited (nodes : List ResultReason) :
    ∀ acc, acc.result = true →
      (check_env_loop acc nodes).2 = nodes_examined nodes := by
  induction nodes with
  | nil => intro acc _; rfl
  | cons nc rest ih =>
    intro acc hacc
    by_cases hr : nc.result = false
    · have hm : (acc.merge nc "os_type").result = false := by
        simp [ResultReason.merge, hr]
      simp [check_env_loop, nodes_examined, hm, hr]
    · have hm : (acc.merge nc "os_type").result = true := by
        simp [ResultReason.merge, hacc]
        simpa using hr
      simp [check_env_loop, nodes_examined, hm, hr, ih _ hm]

/-! ### Facts about the orchestrator -/

lemma process_case_fst (a : Bool) (b : String) (idx : Nat) (c : CaseSpec)
    (r : TestResult) (env : List (String × String)) :
    (process_case a b idx c r env).1 = (case_outcome a b idx c r env).1 := rfl

lemma process_case_stop_flag (a : Bool) (b : String) (idx : Nat) (c : CaseSpec)
    (r : TestResult) (env : List (String × String)) :
    (process_case a b idx c r env).2.1 = (case_outcome a b idx c r env).2.1 := rfl

lemma process_case_events (a : Bool) (b : String) (idx : Nat) (c : CaseSpec)
    (r : TestResult) (env : List (String × String)) :
    (process_case a b idx c r env).2.2 = (case_outcome a b idx c r env).2.2 ++
      List.replicate (retry_call c.after_case (r.runtime_data.retry + 1) 0).1
        (Event.afterCaseAttempt idx) := rfl

lemma case_outcome_not_continue (b : String) (idx : Nat) (c : CaseSpec)
    (r : TestResult) (env : List (String × String)) :
    case_outcome false b idx c r env =
      (set_status (set_status { r with environment := some env } TestStatus.RUNNING "")
          TestStatus.SKIPPED b, false, ([] : List Event)) := rfl

lemma case_outcome_before_fail (b : String) (idx : Nat) (c : CaseSpec)
    (r : TestResult) (env : List (String × String)) (e : Exn)
    (hpb : (retry_call c.before_case (r.runtime_data.retry + 1) 0).2 = some e) :
    case_outcome true b idx c r env =
      (set_status (set_status { r with environment := some env } TestStatus.RUNNING "")
          TestStatus.SKIPPED ("before_case: " ++ e.detail), false,
        List.replicate (retry_call c.before_case (r.runtime_data.retry + 1) 0).1
          (Event.beforeCaseAttempt idx)) := by
  unfold case_outcome
  simp [hpb]

lemma case_outcome_before_ok (b : String) (idx : Nat) (c : CaseSpec)
    (r : TestResult) (env : List (String × String))
    (hpb : (retry_call c.before_case (r.runtime_data.retry + 1) 0).2 = none) :
    case_outcome true b idx c r env =
      ((run_case (set_status { r with environment := some env } TestStatus.RUNNING "")
          c.body).1, c.bodySetsStop,
        List.replicate (retry_call c.before_case (r.runtime_data.retry + 1) 0).1
          (Event.beforeCaseAttempt idx) ++
        List.replicate (run_case (set_status { r with environment := some env }
          TestStatus.RUNNING "") c.body).2 (Event.bodyAttempt idx)) := by
  unfold case_outcome
  simp [hpb]

lemma run_case_trace (r : TestResult) (body : Nat → Option Exn)
    (hst : r.status = TestStatus.RUNNING) :
    ∃ t, statusTrace (run_case r body).1 = statusTrace r ++ [t] ∧
      (t = TestStatus.PASSED ∨ t = TestStatus.FAILED ∨ t = TestStatus.SKIPPED ∨
        t = TestStatus.ATTEMPTED ∨ t = TestStatus.NOTRUN) := by
  cases hp : (retry_call body (r.runtime_data.retry + 1) 0).2 with
  | none =>
    rw [run_case_fst_none _ _ hp]
    exact ⟨TestStatus.PASSED,
      set_status_trace_of_ne _ _ _ (by rw [hst]; decide), Or.inl rfl⟩
  | some e =>
    rw [run_case_fst_some _ _ e hp]
    refine ⟨classify e r.runtime_data.ignore_failure, ?_, classify_cases _ _⟩
    exact handle_exception_trace r e ""
      (by rw [hst]; exact (classify_ne_running e _).symm)

lemma case_outcome_trace (a : Bool) (b : String) (idx : Nat) (c : CaseSpec)
    (r : TestResult) (env : List (String × String))
    (hst : r.status = TestStatus.NOTRUN) (htr : statusTrace r = [TestStatus.NOTRUN]) :
    ∃ t, statusTrace (case_outcome a b idx c r env).1
        = [TestStatus.NOTRUN, TestStatus.RUNNING, t] ∧
      (t = TestStatus.PASSED ∨ t = TestStatus.FAILED ∨ t = TestStatus.SKIPPED ∨
        t = TestStatus.ATTEMPTED ∨ t = TestStatus.NOTRUN) := by
  have henv_st : ({ r with environment := some env } : TestResult).status
      = TestStatus.NOTRUN := hst
  have henv_tr : statusTrace { r with environment := some env }
      = [TestStatus.NOTRUN] := htr
  have h1t : statusTrace (set_status { r with environment := some env }
      TestStatus.RUNNING "") = [TestStatus.NOTRUN, TestStatus.RUNNING] := by
    rw [set_status_trace_of_ne _ _ _ (by rw [henv_st]; decide), henv_tr]
    rfl
  have h1s : (set_status { r with environment := some env }
      TestStatus.RUNNING "").status = TestStatus.RUNNING := set_status_status _ _ _
  cases a with
  | false =>
    rw [case_outcome_not_continue]
    exact ⟨TestStatus.SKIPPED,
      by rw [set_status_trace_of_ne _ _ _ (by rw [h1s]; decide), h1t]; rfl,
      Or.inr (Or.inr (Or.inl rfl))⟩
  | true =>
    cases hpb : (retry_call c.before_case (r.runtime_data.retry + 1) 0).2 with
    | some e =>
      rw [case_outcome_before_fail _ _ _ _ _ _ hpb]
      exact ⟨TestStatus.SKIPPED,
        by rw [set_status_trace_of_ne _ _ _ (by rw [h1s]; decide), h1t]; rfl,
        Or.inr (Or.inr (Or.inl rfl))⟩
    | none =>
      rw [case_outcome_before_ok _ _ _ _ _ hpb]
      obtain ⟨t, ht, hmem⟩ := run_case_trace _ c.body h1s
      exact ⟨t, by rw [ht, h1t]; rfl, hmem⟩

lemma case_outcome_events_mem (a : Bool) (b : String) (idx : Nat) (c : CaseSpec)
    (r : TestResult) (env : List (String × String)) :
    ∀ ev ∈ (case_outcome a b idx c r env).2.2,
      ev = Event.beforeCaseAttempt idx ∨ ev = Event.bodyAttempt idx := by
  intro ev hev
  cases a with
  | false =>
    rw [case_outcome_not_continue] at hev
    simp at hev
  | true =>
    cases hpb : (retry_call c.before_case (r.runtime_data.retry + 1) 0).2 with
    | some e =>
      rw [case_outcome_before_fail _ _ _ _ _ _ hpb] at hev
      exact Or.inl (List.eq_of_mem_replicate hev)
    | none =>
      rw [case_outcome_before_ok _ _ _ _ _ hpb] at hev
      rcases List.mem_append.mp hev with h | h
      · exact Or.inl (List.eq_of_mem_replicate h)
      · exact Or.inr (List.eq_of_mem_replicate h)

lemma process_case_events_mem (a : Bool) (b : String) (idx : Nat) (c : CaseSpec)
    (r : TestResult) (env : List (String × String)) :
    ∀ ev ∈ (process_case a b idx c r env).2.2,
      ev = Event.beforeCaseAttempt idx ∨ ev = Event.bodyAttempt idx ∨
        ev = Event.afterCaseAttempt idx := by
  intro ev hev
  rw [process_case_events] at hev
  rcases List.mem_append.mp hev with h | h
  · rcases case_outcome_events_mem a b idx c r env ev h with h1 | h1
    · exact Or.inl h1
    · exact Or.inr (Or.inl h1)
  · exact Or.inr (Or.inr (List.eq_of_mem_replicate h))

lemma process_case_count_after_suite (a : Bool) (b : String) (idx : Nat) (c : CaseSpec)
    (r : TestResult) (env : List (String × String)) :
    (process_case a b idx c r env).2.2.count Event.afterSuiteCall = 0 := by
  rw [List.count_eq_zero]
  intro hmem
  rcases process_case_events_mem a b idx c r env _ hmem with h | h | h <;> simp at h

lemma process_case_has_after_case (a : Bool) (b : String) (idx : Nat) (c : CaseSpec)
    (r : TestResult) (env : List (String × String)) :
    Event.afterCaseAttempt idx ∈ (process_case a b idx c r env).2.2 := by
  rw [process_case_events]
  apply List.mem_append_right
  rw [List.mem_replicate]
  refine ⟨?_, rfl⟩
  have := retry_call_pos c.after_case r.runtime_data.retry 0
  omega

lemma process_case_false (b : String) (idx : Nat) (c : CaseSpec)
    (r : TestResult) (env : List (String × String)) :
    process_case false b idx c r env =
      (set_status (set_status { r with environment := some env } TestStatus.RUNNING "")
          TestStatus.SKIPPED b, false,
        List.replicate (retry_call c.after_case (r.runtime_data.retry + 1) 0).1
          (Event.afterCaseAttempt idx)) := by
  unfold process_case
  rw [case_outcome_not_continue]
  rfl

lemma start_loop_break (a : Bool) (b : String) (idx : Nat) (c : CaseSpec)
    (r : TestResult) (rest : List (CaseSpec × TestResult))
    (env : List (String × String))
    (h : (process_case a b idx c r env).2.1 = true) :
    start_loop a b idx ((c, r) :: rest) env =
      ((process_case a b idx c r env).1 :: rest.map Prod.snd,
        (process_case a b idx c r env).2.2) := by
  simp [start_loop, h]

lemma start_loop_cont (a : Bool) (b : String) (idx : Nat) (c : CaseSpec)
    (r : TestResult) (rest : List (CaseSpec × TestResult))
    (env : List (String × String))
    (h : (process_case a b idx c r env).2.1 = false) :
    start_loop a b idx ((c, r) :: rest) env =
      ((process_case a b idx c r env).1 :: (start_loop a b (idx + 1) rest env).1,
        (process_case a b idx c r env).2.2 ++ (start_loop a b (idx + 1) rest env).2) := by
  simp [start_loop, h]

lemma start_loop_false (b : String) (hb : b ≠ "") (cs : List (CaseSpec × TestResult)) :
    ∀ (idx : Nat) (env : List (String × String)),
      (start_loop false b idx cs env).1.length = cs.length ∧
      (∀ res ∈ (start_loop false b idx cs env).1,
        res.status = TestStatus.SKIPPED ∧ ∃ pre, res.message = pre ++ b) ∧
      (∀ ev ∈ (start_loop false b idx cs env).2,
        ev.is_case_exec = false ∧ ev ≠ Event.afterSuiteCall) := by
  induction cs with
  | nil =>
    intro idx env
    refine ⟨rfl, ?_, ?_⟩ <;> intro x hx <;> simp [start_loop] at hx
  | cons p rest ih =>
    intro idx env
    obtain ⟨c, r⟩ := p
    have hstop : (process_case false b idx c r env).2.1 = false := by
      rw [process_case_false]
    rw [start_loop_cont _ _ _ _ _ _ _ hstop]
    obtain ⟨ihlen, ihres, ihev⟩ := ih (idx + 1) env
    refine ⟨by simpa using ihlen, ?_, ?_⟩
    · intro res hres
      rcases List.mem_cons.mp hres with h | h
      · subst h
        rw [process_case_fst, case_outcome_not_continue]
        constructor
        · exact set_status_status _ _ _
        · rw [set_status_message, update_message_message _ _ hb]
          by_cases hrm :
              (set_status { r with environment := some env }
                TestStatus.RUNNING "").message = ""
          · rw [if_pos hrm]
            exact ⟨"", (string_empty_append b).symm⟩
          · rw [if_neg hrm]
            exact ⟨_ ++ "\n", rfl⟩
      · exact ihres res h
    · intro ev hev
      rcases List.mem_append.mp hev with h | h
      · rw [process_case_false] at h
        have h1 : ev = Event.afterCaseAttempt idx := List.eq_of_mem_replicate h
        subst h1
        exact ⟨rfl, by simp⟩
      · exact ihev ev h

/-! ### The claims -/

/-- C1: `handle_exception` assigns the status by the fixed precedence:
a skip signal yields `SKIPPED` with message `"<phase> skipped: <detail>"`,
a keep-not-run signal yields `NOTRUN`, a pass-with-warning signal yields
`PASSED` with the warning text preserved, and any other exception yields
`ATTEMPTED` when `ignore_failure` is set and `FAILED` otherwise — in
particular a generic error with `ignore_failure` never yields `FAILED`. -/
theorem handle_exception_precedence (r : TestResult) (phase : String) (e : Exn) :
    (handle_exception r e phase).status = classify e r.runtime_data.ignore_failure ∧
    (∀ d, e = Exn.skippedExc d →
      ∃ pre, (handle_exception r e phase).message =
        pre ++ ((if phase = "" then "" else phase ++ " ") ++ ("skipped: " ++ d))) ∧
    (∀ d, e = Exn.passedExc d →
      ∃ pre, (handle_exception r e phase).message =
        pre ++ ((if phase = "" then "" else phase ++ " ") ++ ("warning: " ++ d))) := by
  refine ⟨handle_exception_status r e phase, ?_, ?_⟩
  · rintro d rfl
    have hm : (if phase = "" then "" else phase ++ " ") ++ ("skipped: " ++ d) ≠ "" :=
      append_ne_empty_right _ _ (append_ne_empty_left "skipped: " d (by decide))
    show ∃ pre, (set_status r TestStatus.SKIPPED
        ((if phase = "" then "" else phase ++ " ") ++ ("skipped: " ++ d))).message = _
    rw [set_status_message, update_message_message _ _ hm]
    by_cases h : r.message = ""
    · rw [if_pos h]
      exact ⟨"", (string_empty_append _).symm⟩
    · rw [if_neg h]
      exact ⟨r.message ++ "\n", rfl⟩
  · rintro d rfl
    have hm : (if phase = "" then "" else phase ++ " ") ++ ("warning: " ++ d) ≠ "" :=
      append_ne_empty_right _ _ (append_ne_empty_left "warning: " d (by decide))
    show ∃ pre, (set_status r TestStatus.PASSED
        ((if phase = "" then "" else phase ++ " ") ++ ("warning: " ++ d))).message = _
    rw [set_status_message, update_message_message _ _ hm]
    by_cases h : r.message = ""
    · rw [if_pos h]
      exact ⟨"", (string_empty_append _).symm⟩
    · rw [if_neg h]
      exact ⟨r.message ++ "\n", rfl⟩

/-- Witness for C1: the skip signal at a concrete record and phase. -/
theorem handle_exception_precedence_witness :
    (handle_exception rFix (Exn.skippedExc "no disk") "before_case").status
        = TestStatus.SKIPPED ∧
    ∃ pre, (handle_exception rFix (Exn.skippedExc "no disk") "before_case").message =
      pre ++ ((if ("before_case" : String) = "" then "" else "before_case" ++ " ") ++
        ("skipped: " ++ "no disk")) := by
  refine ⟨?_, ?_⟩
  · exact (handle_exception_precedence rFix "before_case" (Exn.skippedExc "no disk")).1
  · exact (handle_exception_precedence rFix "before_case" (Exn.skippedExc "no disk")).2.1
      "no disk" rfl

/-- C2: with `retry = r`, the case body is attempted at most `r + 1`
times; if the first successful attempt is attempt `j` (0-based, within
the bound) exactly `j + 1` attempts are made and the status is set to
`PASSED`; only when all `r + 1` attempts raise is the final exception
classified by `handle_exception`. -/
theorem run_case_bounded_retry (r : TestResult) (body : Nat → Option Exn) :
    (run_case r body).2 ≤ r.runtime_data.retry + 1 ∧
    (∀ j, j < r.runtime_data.retry + 1 → body j = none →
      (∀ m, m < j → (body m).isSome) →
      (run_case r body).2 = j + 1 ∧ (run_case r body).1.status = TestStatus.PASSED) ∧
    ((∀ m, m < r.runtime_data.retry + 1 → (body m).isSome) →
      ∃ e, body r.runtime_data.retry = some e ∧
        (run_case r body).1 = handle_exception r e "" ∧
        (run_case r body).2 = r.runtime_data.retry + 1) := by
  refine ⟨?_, ?_, ?_⟩
  · rw [run_case_snd]
    exact retry_call_le body _ 0
  · intro j hj hnone hfail
    have hrc := retry_call_first_success body j (r.runtime_data.retry + 1) 0 hj
      (by simpa using hnone) (fun m hm => by simpa using hfail m hm)
    constructor
    · rw [run_case_snd, hrc]
    · rw [run_case_fst_none r body (by rw [hrc]), set_status_status]
  · intro hfail
    obtain ⟨e, he, hrc⟩ := retry_call_all_fail body (r.runtime_data.retry + 1) 0
      (by omega) (fun m hm => by simpa using hfail m hm)
    refine ⟨e, by simpa using he, ?_, ?_⟩
    · exact run_case_fst_some r body e (by rw [hrc])
    · rw [run_case_snd, hrc]

/-- Witness for C2: a body failing on attempts 0 and 1 and succeeding
on attempt 2, with retry 2 — exactly three attempts and `PASSED`. -/
theorem run_case_bounded_retry_witness :
    (run_case rFix bodyFix).2 = 2 + 1 ∧
    (run_case rFix bodyFix).1.status = TestStatus.PASSED := by
  have h := (run_case_bounded_retry rFix bodyFix).2.1 2 (by decide) (by decide)
    (fun m hm => by interval_cases m <;> decide)
  exact ⟨h.1, h.2⟩

/-- C4 counterexample: a call to `set_status` with the current status
(`rFix` is at `NOTRUN`) and a non-empty message emits nothing — the
sink keeps its single creation message. -/
theorem set_status_noop_emits_nothing :
    rFix.status = TestStatus.NOTRUN ∧
    ¬ (set_status rFix TestStatus.NOTRUN "note").sink.length
        = rFix.sink.length + 1 := by
  constructor
  · rfl
  · decide

/-- C4 (amended): `set_status` emits a result message exactly when the
new status differs from the current one; the emitted message carries
the record's id, the new status, the record's name, the message text
truncated to at most 2048 characters, the elapsed time and the merged
environment/case information map.  (The claim's "even when the new
status equals the current status" does not hold: such calls emit
nothing.) -/
theorem set_status_emits_on_change (r : TestResult) (s : TestStatus) (m : String) :
    (r.status ≠ s →
      ∃ msg, (set_status r s m).sink = r.sink ++ [msg] ∧
        msg.id_ = r.id_ ∧ msg.status = s ∧
        msg.name = r.runtime_data.full_name ∧
        msg.message = strTake (set_status r s m).message 2048 ∧
        msg.message.length ≤ 2048 ∧
        msg.elapsed = (set_status r s m).elapsed ∧
        msg.information = (set_status r s m).information) ∧
    (r.status = s → (set_status r s m).sink = r.sink) := by
  constructor
  · intro h
    have h1 : (update_message r m).status ≠ s := by
      rw [update_message_status]; exact h
    unfold set_status
    rw [if_pos h1]
    split
    · obtain ⟨msg, hsink, hid, hst, hname, hmsg, hel, hinfo⟩ :=
        send_sink { update_message r m with status := s, timer := some 0 }
      refine ⟨msg, ?_, ?_, hst, ?_, hmsg, ?_, hel, hinfo⟩
      · rw [hsink]
        have : ({ update_message r m with status := s, timer := some 0 } : TestResult).sink
            = r.sink := update_message_sink r m
        rw [this]
      · rw [hid]
        exact update_message_id r m
      · rw [hname]
        show (update_message r m).runtime_data.full_name = _
        rw [update_message_runtime_data]
      · rw [hmsg]
        exact strTake_length_le _ _
    · obtain ⟨msg, hsink, hid, hst, hname, hmsg, hel, hinfo⟩ :=
        send_sink { update_message r m with status := s }
      refine ⟨msg, ?_, ?_, hst, ?_, hmsg, ?_, hel, hinfo⟩
      · rw [hsink]
        have : ({ update_message r m with status := s } : TestResult).sink
            = r.sink := update_message_sink r m
        rw [this]
      · rw [hid]
        exact update_message_id r m
      · rw [hname]
        show (update_message r m).runtime_data.full_name = _
        rw [update_message_runtime_data]
      · rw [hmsg]
        exact strTake_length_le _ _
  · exact set_status_sink_of_eq r s m

/-- Witness for C4 (amended): the `NOTRUN → RUNNING` transition at a
concrete record does emit a message. -/
theorem set_status_emits_on_change_witness :
    rFix.status ≠ TestStatus.RUNNING ∧
    ∃ msg, (set_status rFix TestStatus.RUNNING "go").sink = rFix.sink ++ [msg] ∧
      msg.id_ = rFix.id_ ∧ msg.status = TestStatus.RUNNING ∧
      msg.name = rFix.runtime_data.full_name ∧
      msg.message = strTake (set_status rFix TestStatus.RUNNING "go").message 2048 ∧
      msg.message.length ≤ 2048 ∧
      msg.elapsed = (set_status rFix TestStatus.RUNNING "go").elapsed ∧
      msg.information = (set_status rFix TestStatus.RUNNING "go").information :=
  ⟨by decide, (set_status_emits_on_change rFix TestStatus.RUNNING "go").1 (by decide)⟩

/-- C7 counterexample: with `save_reason = true` and two nodes of which
the first fails, the loop still examines only one node — it does not
continue across all nodes. -/
theorem check_environment_stops_despite_save_reason :
    (check_environment rFix ⟨true, []⟩ true true
        [⟨false, ["node 0 os mismatch"]⟩, ⟨true, ["node 1 os ok"]⟩] true).2.2 = 1 ∧
    ([⟨false, ["node 0 os mismatch"]⟩, ⟨true, ["node 1 os ok"]⟩]
        : List ResultReason).length = 2 := by
  constructor <;> rfl

/-- C7 (amended): the per-node loop of `check_environment` stops at the
first failing node regardless of `save_reason`: the verdict and the
number of nodes examined are identical for `save_reason = true` and
`false`, the false flag leaves the record untouched, and when the loop
is entered it examines exactly the nodes up to and including the first
failing one. -/
theorem check_environment_first_fail_stop (r : TestResult) (envCheck : ResultReason)
    (hos conn : Bool) (nodes : List ResultReason) (save : Bool) :
    (check_environment r envCheck hos conn nodes save).1
        = (check_environment r envCheck hos conn nodes false).1 ∧
    (check_environment r envCheck hos conn nodes save).2.2
        = (check_environment r envCheck hos conn nodes false).2.2 ∧
    (check_environment r envCheck hos conn nodes false).2.1 = r ∧
    (check_environment r envCheck hos conn nodes save).2.2 =
      (if envCheck.result && hos && conn then nodes_examined nodes else 0) := by
  refine ⟨rfl, rfl, rfl, ?_⟩
  unfold check_environment
  split
  · rename_i hcond
    have henv : envCheck.result = true := by
      have := hcond
      simp only [Bool.and_eq_true] at this
      exact this.1.1
    exact check_env_loop_visited nodes envCheck henv
  · rfl

/-- C9: registering a suite whose key is already present, or a case
whose fully-qualified name is already present, raises a duplicate error
and returns the registries exactly as they were. -/
theorem register_duplicate_leaves_registry (reg : Registry) (sm : SuiteMeta) (cm : CaseMeta)
    (hs : (alist_get reg.all_suites (suite_key sm)).isSome)
    (hc : (alist_get reg.all_cases cm.full_name).isSome) :
    _add_suite_metadata reg sm
        = (reg, some ("duplicate test class name: " ++ suite_key sm)) ∧
    _add_case_metadata reg cm
        = (reg, some ("duplicate test class name: " ++ cm.full_name)) := by
  constructor
  · obtain ⟨v, hv⟩ := Option.isSome_iff_exists.mp hs
    simp [_add_suite_metadata, hv]
  · obtain ⟨v, hv⟩ := Option.isSome_iff_exists.mp hc
    simp [_add_case_metadata, hv]

/-- Witness for C9: a concrete registry already holding the suite name
and the case full name being re-registered. -/
theorem register_duplicate_leaves_registry_witness :
    (alist_get regFix.all_suites (suite_key smFix)).isSome = true ∧
    (alist_get regFix.all_cases cmFix.full_name).isSome = true ∧
    _add_suite_metadata regFix smFix
        = (regFix, some ("duplicate test class name: " ++ suite_key smFix)) ∧
    _add_case_metadata regFix cmFix
        = (regFix, some ("duplicate test class name: " ++ cmFix.full_name)) := by
  refine ⟨by decide, by decide, ?_, ?_⟩
  · exact (register_duplicate_leaves_registry regFix smFix cmFix
      (by decide) (by decide)).1
  · exact (register_duplicate_leaves_registry regFix smFix cmFix
      (by decide) (by decide)).2

/-- C3: when `before_suite` raises, the run does not raise (the
embedding is total): every case record in the provided list ends
`SKIPPED` with the suite-level error message `"before_suite: <detail>"`
appended, no `before_case` attempt and no case-body attempt happens,
and `after_suite` still runs exactly once. -/
theorem before_suite_failure_skips_all (sr : SuiteRun)
    (cs : List (CaseSpec × TestResult)) (env : List (String × String))
    (d : String) (hb : sr.before_suite = some d) :
    (start sr cs env).1.length = cs.length ∧
    (∀ res ∈ (start sr cs env).1,
      res.status = TestStatus.SKIPPED ∧
      ∃ pre, res.message = pre ++ ("before_suite: " ++ d)) ∧
    (∀ ev ∈ (start sr cs env).2, ev.is_case_exec = false) ∧
    (start sr cs env).2.count Event.afterSuiteCall = 1 := by
  have hmsg : ("before_suite: " ++ d) ≠ "" := append_ne_empty_left _ _ (by decide)
  have hstart : start sr cs env =
      ((start_loop false ("before_suite: " ++ d) 0 cs env).1,
        Event.beforeSuiteCall ::
          (start_loop false ("before_suite: " ++ d) 0 cs env).2
          ++ [Event.afterSuiteCall]) := by
    unfold start
    rw [hb]
    rfl
  obtain ⟨hlen, hres, hev⟩ := start_loop_false _ hmsg cs 0 env
  rw [hstart]
  refine ⟨hlen, hres, ?_, ?_⟩
  · intro ev hev2
    rcases List.mem_cons.mp hev2 with h | h
    · subst h; rfl
    · rcases List.mem_append.mp h with h2 | h2
      · exact (hev ev h2).1
      · have h3 : ev = Event.afterSuiteCall := by simpa using h2
        subst h3; rfl
  · have hz : (start_loop false ("before_suite: " ++ d) 0 cs env).2.count
        Event.afterSuiteCall = 0 :=
      List.count_eq_zero.mpr (fun hmem => (hev _ hmem).2 rfl)
    simp [List.count_cons, List.count_append, hz]

/-- Witness for C3: a concrete suite whose `before_suite` raises, with
two cases — both records end `SKIPPED`. -/
theorem before_suite_failure_skips_all_witness :
    srBad.before_suite = some "no network" ∧
    (start srBad [(csOk, rFix), (csNotRun, rFix0)]
        ([] : List (String × String))).1.length = 2 ∧
    ((start srBad [(csOk, rFix), (csNotRun, rFix0)]
        ([] : List (String × String))).1.headD rFix).status = TestStatus.SKIPPED := by
  have h := before_suite_failure_skips_all srBad [(csOk, rFix), (csNotRun, rFix0)]
    ([] : List (String × String)) "no network" rfl
  refine ⟨rfl, h.1, ?_⟩
  cases hl : (start srBad [(csOk, rFix), (csNotRun, rFix0)]
      ([] : List (String × String))).1 with
  | nil => rw [hl] at h; simp at h
  | cons x xs =>
    have hx : x ∈ (start srBad [(csOk, rFix), (csNotRun, rFix0)]
        ([] : List (String × String))).1 := by
      rw [hl]; exact List.mem_cons_self x xs
    have hst := (h.2.1 x hx).1
    simpa using hst

/-- C5: `after_case` runs after the case is decided — for every case
(including the suite-setup-failure and `before_case`-failure paths) the
processed record equals the decided record, whatever the `after_case`
behaviour (even one that raises on every attempt), and at least one
`after_case` attempt is appended after the decision events. -/
theorem after_case_preserves_decision (a : Bool) (b : String) (idx : Nat)
    (c : CaseSpec) (r : TestResult) (env : List (String × String)) :
    (process_case a b idx c r env).1 = (case_outcome a b idx c r env).1 ∧
    (∀ g, (process_case a b idx { c with after_case := g } r env).1
        = (case_outcome a b idx c r env).1) ∧
    ∃ k, 1 ≤ k ∧ (process_case a b idx c r env).2.2
      = (case_outcome a b idx c r env).2.2 ++
          List.replicate k (Event.afterCaseAttempt idx) := by
  refine ⟨rfl, fun g => rfl, ?_⟩
  exact ⟨(retry_call c.after_case (r.runtime_data.retry + 1) 0).1,
    retry_call_pos _ _ _, rfl⟩

/-- C6 counterexample: a case body raising the keep-not-run signal
drives a fresh record through `NOTRUN → RUNNING → NOTRUN`, so the
claimed closed diagram (`Running` never returning to `NotRun`) fails. -/
theorem status_diagram_counterexample :
    statusTrace (process_case true "" 0 csNotRun rFix0
        ([] : List (String × String))).1
      = [TestStatus.NOTRUN, TestStatus.RUNNING, TestStatus.NOTRUN] ∧
    stepsOK [TestStatus.NOTRUN, TestStatus.RUNNING, TestStatus.NOTRUN] = false := by
  constructor
  · decide
  · decide

/-- C6 (amended): over one orchestrated run of a freshly created
record, the status history is exactly `NOTRUN`, then `RUNNING` entered
once, then one final status — `PASSED`, `FAILED`, `SKIPPED`,
`ATTEMPTED`, or (for the keep-not-run signal, which the claimed diagram
omits) `NOTRUN` — and nothing changes afterwards in that run. -/
theorem status_transitions_of_run (a : Bool) (b : String) (idx : Nat)
    (c : CaseSpec) (id_ : String) (rd : TestCaseRuntimeData)
    (env : List (String × String)) :
    ∃ t, statusTrace (process_case a b idx c (TestResult.create id_ rd) env).1
        = [TestStatus.NOTRUN, TestStatus.RUNNING, t] ∧
      (t = TestStatus.PASSED ∨ t = TestStatus.FAILED ∨ t = TestStatus.SKIPPED ∨
        t = TestStatus.ATTEMPTED ∨ t = TestStatus.NOTRUN) := by
  rw [process_case_fst]
  exact case_outcome_trace a b idx c _ env (create_status id_ rd) (create_trace id_ rd)

/-- C8: once a case's body sets the stop flag, the loop breaks after
that case's `after_case`: the remaining records are returned untouched
and contribute no events, the stopping case still gets an `after_case`
attempt, and `after_suite` runs exactly once. -/
theorem stop_short_circuits_loop (sr : SuiteRun) (c1 c2 : CaseSpec)
    (r1 r2 : TestResult) (rest : List (CaseSpec × TestResult))
    (env : List (String × String))
    (h0 : sr.before_suite = none)
    (h1 : (process_case true "" 0 c1 r1 env).2.1 = false)
    (h2 : (process_case true "" 1 c2 r2 env).2.1 = true) :
    (start sr ((c1, r1) :: (c2, r2) :: rest) env).1
        = (process_case true "" 0 c1 r1 env).1 ::
            (process_case true "" 1 c2 r2 env).1 :: rest.map Prod.snd ∧
    (start sr ((c1, r1) :: (c2, r2) :: rest) env).2
        = Event.beforeSuiteCall :: ((process_case true "" 0 c1 r1 env).2.2 ++
            (process_case true "" 1 c2 r2 env).2.2) ++ [Event.afterSuiteCall] ∧
    Event.afterCaseAttempt 1 ∈ (start sr ((c1, r1) :: (c2, r2) :: rest) env).2 ∧
    (start sr ((c1, r1) :: (c2, r2) :: rest) env).2.count Event.afterSuiteCall
        = 1 := by
  have hloop : start_loop true "" 0 ((c1, r1) :: (c2, r2) :: rest) env =
      ((process_case true "" 0 c1 r1 env).1 ::
          (process_case true "" 1 c2 r2 env).1 :: rest.map Prod.snd,
        (process_case true "" 0 c1 r1 env).2.2 ++
          (process_case true "" 1 c2 r2 env).2.2) := by
    rw [start_loop_cont _ _ _ _ _ _ _ h1, start_loop_break _ _ _ _ _ _ _ h2]
  have hstart : start sr ((c1, r1) :: (c2, r2) :: rest) env =
      ((start_loop true "" 0 ((c1, r1) :: (c2, r2) :: rest) env).1,
        Event.beforeSuiteCall ::
          (start_loop true "" 0 ((c1, r1) :: (c2, r2) :: rest) env).2
          ++ [Event.afterSuiteCall]) := by
    unfold start
    rw [h0]
    rfl
  rw [hstart, hloop]
  refine ⟨rfl, rfl, ?_, ?_⟩
  · exact List.mem_cons_of_mem _ (List.mem_append_left _
      (List.mem_append_right _ (process_case_has_after_case true "" 1 c2 r2 env)))
  · have z1 := process_case_count_after_suite true "" 0 c1 r1 env
    have z2 := process_case_count_after_suite true "" 1 c2 r2 env
    simp [List.count_cons, List.count_append, z1, z2]

/-- Witness for C8: a three-case suite where the second case's body
calls `stop()` — the first two cases run, the third record is returned
untouched, and `after_suite` runs once. -/
theorem stop_short_circuits_loop_witness :
    (process_case true "" 0 csOk rFix ([] : List (String × String))).2.1 = false ∧
    (process_case true "" 1 csStop rFix0 ([] : List (String × String))).2.1 = true ∧
    (start srOk [(csOk, rFix), (csStop, rFix0), (csNotRun, rFix0)]
        ([] : List (String × String))).1
      = [(process_case true "" 0 csOk rFix ([] : List (String × String))).1,
         (process_case true "" 1 csStop rFix0 ([] : List (String × String))).1,
         rFix0] ∧
    (start srOk [(csOk, rFix), (csStop, rFix0), (csNotRun, rFix0)]
        ([] : List (String × String))).2.count Event.afterSuiteCall = 1 := by
  have h := stop_short_circuits_loop srOk csOk csStop rFix rFix0
    [(csNotRun, rFix0)] ([] : List (String × String)) rfl (by decide) (by decide)
  refine ⟨by decide, by decide, ?_, h.2.2.2⟩
  simpa using h.1

/-- C10: creating a case run record immediately emits exactly one
result message, with status `NOTRUN`, empty message text and empty
information, before any status transition. -/
theorem create_emits_initial_notrun (id_ : String) (rd : TestCaseRuntimeData) :
    (TestResult.create id_ rd).sink =
      [{ id_ := id_, type := "TestResult", name := rd.full_name,
         status := TestStatus.NOTRUN, elapsed := 0, message := "",
         information := [] }] ∧
    (TestResult.create id_ rd).status = TestStatus.NOTRUN :=
  ⟨rfl, rfl⟩

end Lisa
